import Mathlib

/-!
Shallow embedding of the request/response normalization layer of the
solapi-nodejs client library (src/solapi.ts, src/requests/iam/getBlacksRequest.ts,
src/responses/iam/getBlockGroupsResponse.ts,
src/responses/kakao/getKakaoChannelsResponse.ts).

The HTTP transport (`defaultFetcher`) is an external collaborator; it is
modelled as a function argument returning `Except` (transport error or decoded
response body), and each facade method additionally returns the list of
transport calls it issued, so that call-count and call-order properties can be
stated.
-/

namespace Solapi

/-- Model of a JavaScript `Date` object, opaque to this layer (the library only
ever passes dates to formatting collaborators); represented by its epoch
milliseconds. -/
structure DateObj where
  millis : Int
deriving Repr, DecidableEq

/-- Model of the TypeScript union type `string | Date` used for raw date
fields such as `startDate`, `endDate` and `scheduledDate`. -/
inductive StrOrDate where
  | str : String → StrOrDate
  | date : DateObj → StrOrDate
deriving Repr, DecidableEq

/-- Request config built by each facade method: HTTP method plus absolute URL
(`src/solapi.ts`, the `RequestConfig` values). -/
structure RequestConfig where
  method : String
  url : String
deriving Repr, DecidableEq

/-- Modelled from the spec: the per-group counters embedded in a successful
send response body; `send` (src/solapi.ts lines 160-169) reads exactly
`groupInfo.count.total` and `groupInfo.count.registeredFailed`. The response
type itself lives in `src/responses/sendManyDetailResponse.ts`, which is not
under src/. -/
structure GroupCount where
  total : Nat
  registeredFailed : Nat
deriving Repr, DecidableEq

/-- Modelled from the spec: the `groupInfo` object of the send response body;
only its `count` member is read by this layer. -/
structure GroupInfo where
  count : GroupCount
deriving Repr, DecidableEq

/-- Modelled from the spec: the decoded body of `POST /messages/v4/send-many/detail`;
`send` reads `groupInfo` and `failedMessageList`. The element type of
`failedMessageList` is opaque to this layer, hence the type parameter. -/
structure DetailGroupMessageResponse (F : Type) where
  groupInfo : GroupInfo
  failedMessageList : List F
deriving Repr, DecidableEq

/-- Modelled from the spec: the optional request-config parameter of `send`
(`src/requests/sendRequestConfig.ts`, not under src/); `send` reads its four
optional members with optional chaining. -/
structure SendRequestConfig where
  allowDuplicates : Option Bool
  appId : Option String
  scheduledDate : Option StrOrDate
  showMessageList : Option Bool
deriving Repr, DecidableEq

/-- Modelled from the spec: `MultipleDetailMessageSendingRequest` (constructed
at src/solapi.ts lines 145-151 from the payload and the four optional config
members); represented as the record of its constructor arguments. -/
structure MultipleDetailMessageSendingRequest (M : Type) where
  messages : List M
  allowDuplicates : Option Bool
  appId : Option String
  scheduledDate : Option StrOrDate
  showMessageList : Option Bool
deriving Repr, DecidableEq

/-- Errors `send` can surface: a synchronous validation error
(`BadRequestError`), the post-hoc policy error (`MessageNotReceivedError`
carrying the failed entries), or a transport error propagated unchanged. -/
inductive SendError (F E : Type) where
  | badRequestError : String → SendError F E
  | messageNotReceivedError : List F → SendError F E
  | transportError : E → SendError F E
deriving Repr, DecidableEq

/-- The `messages` argument of `send`: a bare message parameter or an array of
message parameters (`MessageParameter | Array<MessageParameter>`). -/
inductive MessageArg (P : Type) where
  | single : P → MessageArg P
  | array : List P → MessageArg P
deriving Repr, DecidableEq

/-- The payload-building prelude of `send` (src/solapi.ts lines 130-139): an
array input is wrapped element-wise with the `Message` constructor (`wrap`),
a bare input becomes a one-element payload. -/
def sendPayload (wrap : P → M) : MessageArg P → List M
  | MessageArg.array ms => ms.map wrap
  | MessageArg.single m => [wrap m]

/-- Whether the `messages` argument of `send` is well-formed: a single message
or a non-empty array. -/
def MessageArg.isWellFormed : MessageArg P → Bool
  | MessageArg.single _ => true
  | MessageArg.array ms => !ms.isEmpty

/-- Base URL of the service facade (src/solapi.ts line 106). -/
def baseUrl : String := "https://api.solapi.com"

/-- Embedding of `SolapiMessageService.send` (src/solapi.ts lines 126-171).
`wrap` stands for the `Message` constructor (`src/models/message.ts`, not under
src/, opaque to this method), `transport` for the `defaultFetcher`
collaborator. The first component of the result is the list of transport
calls issued, in order; the second is the settled outcome. -/
def send (wrap : P → M) (messages : MessageArg P) (cfg : Option SendRequestConfig)
    (transport : RequestConfig → MultipleDetailMessageSendingRequest M →
      Except E (DetailGroupMessageResponse F)) :
    List (RequestConfig × MultipleDetailMessageSendingRequest M) ×
      Except (SendError F E) (DetailGroupMessageResponse F) :=
  let payload := sendPayload wrap messages
  if payload.length = 0 then
    ([], Except.error (SendError.badRequestError
      "데이터가 반드시 1건 이상 기입되어 있어야 합니다."))
  else
    let parameter : MultipleDetailMessageSendingRequest M :=
      { messages := payload
        allowDuplicates := cfg.bind (fun c => c.allowDuplicates)
        appId := cfg.bind (fun c => c.appId)
        scheduledDate := cfg.bind (fun c => c.scheduledDate)
        showMessageList := cfg.bind (fun c => c.showMessageList) }
    let requestConfig : RequestConfig :=
      { method := "POST", url := baseUrl ++ "/messages/v4/send-many/detail" }
    match transport requestConfig parameter with
    | Except.error e => ([(requestConfig, parameter)], Except.error (SendError.transportError e))
    | Except.ok res =>
        ([(requestConfig, parameter)],
          if res.failedMessageList.length > 0 ∧
              res.groupInfo.count.total = res.groupInfo.count.registeredFailed then
            Except.error (SendError.messageNotReceivedError res.failedMessageList)
          else
            Except.ok res)

/-- Claim C2: calling `send` with an empty array fails with a validation error
(`BadRequestError`) and the transport collaborator is never called (the call
list is empty). -/
theorem send_empty_array_fails_before_transport (wrap : P → M)
    (cfg : Option SendRequestConfig)
    (transport : RequestConfig → MultipleDetailMessageSendingRequest M →
      Except E (DetailGroupMessageResponse F)) :
    send wrap (MessageArg.array []) cfg transport =
      ([], Except.error (SendError.badRequestError
        "데이터가 반드시 1건 이상 기입되어 있어야 합니다.")) := rfl

/-- Claim C9: `send` on a bare message behaves identically to `send` on the
one-element array holding that message: the whole outcome, including the
issued transport calls and their payloads, is equal. -/
theorem send_single_eq_array_singleton (wrap : P → M) (m : P)
    (cfg : Option SendRequestConfig)
    (transport : RequestConfig → MultipleDetailMessageSendingRequest M →
      Except E (DetailGroupMessageResponse F)) :
    send wrap (MessageArg.single m) cfg transport =
      send wrap (MessageArg.array [m]) cfg transport := rfl

/-- Claim C6: on every well-formed `messages` argument (a single message or a
non-empty array of any size) `send` issues exactly one transport call, whatever
the transport answers. -/
theorem send_exactly_one_transport_call (wrap : P → M) (messages : MessageArg P)
    (cfg : Option SendRequestConfig)
    (transport : RequestConfig → MultipleDetailMessageSendingRequest M →
      Except E (DetailGroupMessageResponse F))
    (h : messages.isWellFormed = true) :
    (send wrap messages cfg transport).1.length = 1 := by
  have hnz : ¬(sendPayload wrap messages).length = 0 := by
    cases messages with
    | single m => simp [sendPayload]
    | array ms =>
      cases ms with
      | nil => simp [MessageArg.isWellFormed] at h
      | cons a as => simp [sendPayload]
  unfold send
  simp only [if_neg hnz]
  cases transport _ _ <;> rfl

/-- Witness for C6 at a concrete two-element batch and a transport that always
fails. -/
theorem send_exactly_one_transport_call_witness :
    (MessageArg.array [1, 2]).isWellFormed = true ∧
    (send (fun n : Nat => n) (MessageArg.array [1, 2]) none
      (fun _ _ => (Except.error () :
        Except Unit (DetailGroupMessageResponse Nat)))).1.length = 1 :=
  ⟨by decide,
    send_exactly_one_transport_call (fun n : Nat => n) (MessageArg.array [1, 2]) none
      (fun _ _ => Except.error ()) (by decide)⟩

/-- Concrete transport response exhibiting the gap in claim C1: the failure
counter equals the total counter, yet `failedMessageList` is empty. -/
def cexResponse : DetailGroupMessageResponse Nat :=
  { groupInfo := { count := { total := 3, registeredFailed := 3 } }
    failedMessageList := [] }

/-- Counterexample to claim C1 as stated: for the transport response
`cexResponse`, `groupInfo.count.total = groupInfo.count.registeredFailed`
holds, yet `send` does not fail with `MessageNotReceivedError` — it returns
the raw response as a success, because the code additionally requires
`failedMessageList.length > 0` before throwing. -/
theorem send_allFailed_claim_counterexample :
    cexResponse.groupInfo.count.total = cexResponse.groupInfo.count.registeredFailed ∧
    (send (fun n : Nat => n) (MessageArg.single 1) none
      (fun _ _ => (Except.ok cexResponse :
        Except Unit (DetailGroupMessageResponse Nat)))).2 = Except.ok cexResponse ∧
    (send (fun n : Nat => n) (MessageArg.single 1) none
      (fun _ _ => (Except.ok cexResponse :
        Except Unit (DetailGroupMessageResponse Nat)))).2 ≠
      Except.error (SendError.messageNotReceivedError cexResponse.failedMessageList) := by
  have h2 : (send (fun n : Nat => n) (MessageArg.single 1) none
      (fun _ _ => (Except.ok cexResponse :
        Except Unit (DetailGroupMessageResponse Nat)))).2 = Except.ok cexResponse := rfl
  refine ⟨rfl, h2, ?_⟩
  rw [h2]
  exact fun hcontra => Except.noConfusion hcontra

/-- Claim C1 (amended): for every transport response `res`, `send` fails with
`MessageNotReceivedError` carrying exactly `res.failedMessageList` when
`failedMessageList` is non-empty and `groupInfo.count.total` equals
`groupInfo.count.registeredFailed`; otherwise it returns the raw response
unmodified. -/
theorem send_policy_error_iff (wrap : P → M) (messages : MessageArg P)
    (cfg : Option SendRequestConfig) (res : DetailGroupMessageResponse F)
    (transport : RequestConfig → MultipleDetailMessageSendingRequest M →
      Except E (DetailGroupMessageResponse F))
    (hnp : sendPayload wrap messages ≠ [])
    (ht : ∀ rc parameter, transport rc parameter = Except.ok res) :
    (send wrap messages cfg transport).2 =
      if res.failedMessageList.length > 0 ∧
          res.groupInfo.count.total = res.groupInfo.count.registeredFailed then
        Except.error (SendError.messageNotReceivedError res.failedMessageList)
      else
        Except.ok res := by
  have hnz : ¬(sendPayload wrap messages).length = 0 := by
    simpa [List.length_eq_zero] using hnp
  unfold send
  simp only [if_neg hnz, ht]

/-- Witness for the amended C1 at a concrete input: with the transport
answering `cexResponse` (empty failed list), `send` returns the raw
response. -/
theorem send_policy_error_iff_witness :
    (send (fun n : Nat => n) (MessageArg.single 1) none
      (fun _ _ => (Except.ok cexResponse :
        Except Unit (DetailGroupMessageResponse Nat)))).2 = Except.ok cexResponse := by
  have h := send_policy_error_iff (fun n : Nat => n) (MessageArg.single 1) none cexResponse
    (fun _ _ => (Except.ok cexResponse : Except Unit (DetailGroupMessageResponse Nat)))
    (by decide) (fun _ _ => rfl)
  simpa [cexResponse] using h

/-- Modelled from the spec: the group response body
(`src/responses/messageResponses.ts`, not under src/); the composite sends
read only its `groupId`. -/
structure GroupMessageResponse where
  groupId : String
deriving Repr, DecidableEq

/-- Modelled from the spec: the body returned by the add-messages-to-group
endpoint; opaque to the composite sends, which discard it. -/
structure AddMessageResponse where
  resultCount : Nat
deriving Repr, DecidableEq

/-- Record of one transport call issued by the composite future sends
(`createGroup`, `addMessagesToGroup`, `reserveGroup`, src/solapi.ts lines
261-337), tagged with the data the facade put on the wire. -/
inductive FutureCall (M : Type) where
  | createGroup : Bool → Option String → FutureCall M
  | addMessagesToGroup : String → List M → FutureCall M
  | reserveGroup : String → String → FutureCall M
deriving Repr, DecidableEq

/-- Transport oracle for the three endpoints the composite future sends hit:
one answer per endpoint, the latter two depending on the data sent. -/
structure FutureTransport (M E : Type) where
  createGroupResult : Bool → Option String → Except E GroupMessageResponse
  addMessagesResult : String → List M → Except E AddMessageResponse
  reserveResult : String → String → Except E GroupMessageResponse

/-- Embedding of `SolapiMessageService.sendOneFuture` (src/solapi.ts lines
198-206): create a group (`createGroup()` with defaulted arguments), add the
single message to it, convert the scheduled date (`stringDateTransfer`, a lib
collaborator not under src/, modelled by the argument `toDate`), and reserve
the group (`reserveGroup` formats the date with `formatISO`, modelled by
`fmtISO`). Each `await` that fails aborts the remaining steps. Returns the
ordered transport-call trace and the outcome. -/
def sendOneFuture (message : M) (scheduledDate : StrOrDate)
    (toDate : StrOrDate → DateObj) (fmtISO : DateObj → String)
    (t : FutureTransport M E) :
    List (FutureCall M) × Except E GroupMessageResponse :=
  match t.createGroupResult false none with
  | Except.error e => ([FutureCall.createGroup false none], Except.error e)
  | Except.ok gres =>
    let groupId := gres.groupId
    match t.addMessagesResult groupId [message] with
    | Except.error e =>
        ([FutureCall.createGroup false none,
          FutureCall.addMessagesToGroup groupId [message]], Except.error e)
    | Except.ok _ =>
      let formatted := fmtISO (toDate scheduledDate)
      match t.reserveResult groupId formatted with
      | Except.error e =>
          ([FutureCall.createGroup false none,
            FutureCall.addMessagesToGroup groupId [message],
            FutureCall.reserveGroup groupId formatted], Except.error e)
      | Except.ok r =>
          ([FutureCall.createGroup false none,
            FutureCall.addMessagesToGroup groupId [message],
            FutureCall.reserveGroup groupId formatted], Except.ok r)

/-- Embedding of `SolapiMessageService.sendManyFuture` (src/solapi.ts lines
246-256): identical chain, but the group is created with the caller's
`allowDuplicates`/`appId` and the whole message array is added. -/
def sendManyFuture (messages : List M) (scheduledDate : StrOrDate)
    (allowDuplicates : Bool) (appId : Option String)
    (toDate : StrOrDate → DateObj) (fmtISO : DateObj → String)
    (t : FutureTransport M E) :
    List (FutureCall M) × Except E GroupMessageResponse :=
  match t.createGroupResult allowDuplicates appId with
  | Except.error e => ([FutureCall.createGroup allowDuplicates appId], Except.error e)
  | Except.ok gres =>
    let groupId := gres.groupId
    match t.addMessagesResult groupId messages with
    | Except.error e =>
        ([FutureCall.createGroup allowDuplicates appId,
          FutureCall.addMessagesToGroup groupId messages], Except.error e)
    | Except.ok _ =>
      let formatted := fmtISO (toDate scheduledDate)
      match t.reserveResult groupId formatted with
      | Except.error e =>
          ([FutureCall.createGroup allowDuplicates appId,
            FutureCall.addMessagesToGroup groupId messages,
            FutureCall.reserveGroup groupId formatted], Except.error e)
      | Except.ok r =>
          ([FutureCall.createGroup allowDuplicates appId,
            FutureCall.addMessagesToGroup groupId messages,
            FutureCall.reserveGroup groupId formatted], Except.ok r)

/-- Claim C5: in both composite operations (create group → add messages →
schedule), a failing intermediate transport call stops the chain: when the
create-group call fails the trace is exactly that one call, and when the
add-messages call fails the trace is exactly those two calls — in particular
no subsequent call in the sequence is executed. -/
theorem future_send_stops_on_intermediate_failure (message : M) (messages : List M)
    (scheduledDate : StrOrDate) (allowDuplicates : Bool) (appId : Option String)
    (toDate : StrOrDate → DateObj) (fmtISO : DateObj → String)
    (t : FutureTransport M E) :
    (∀ e, t.createGroupResult false none = Except.error e →
      (sendOneFuture message scheduledDate toDate fmtISO t).1 =
        [FutureCall.createGroup false none]) ∧
    (∀ e gres, t.createGroupResult false none = Except.ok gres →
      t.addMessagesResult gres.groupId [message] = Except.error e →
      (sendOneFuture message scheduledDate toDate fmtISO t).1 =
        [FutureCall.createGroup false none,
         FutureCall.addMessagesToGroup gres.groupId [message]]) ∧
    (∀ e, t.createGroupResult allowDuplicates appId = Except.error e →
      (sendManyFuture messages scheduledDate allowDuplicates appId toDate fmtISO t).1 =
        [FutureCall.createGroup allowDuplicates appId]) ∧
    (∀ e gres, t.createGroupResult allowDuplicates appId = Except.ok gres →
      t.addMessagesResult gres.groupId messages = Except.error e →
      (sendManyFuture messages scheduledDate allowDuplicates appId toDate fmtISO t).1 =
        [FutureCall.createGroup allowDuplicates appId,
         FutureCall.addMessagesToGroup gres.groupId messages]) := by
  refine ⟨?_, ?_, ?_, ?_⟩
  · intro e he
    simp [sendOneFuture, he]
  · intro e gres hg ha
    simp [sendOneFuture, hg, ha]
  · intro e he
    simp [sendManyFuture, he]
  · intro e gres hg ha
    simp [sendManyFuture, hg, ha]

/-- Concrete transport oracle for the C5 witness: group creation succeeds with
group id "G1", adding messages fails, scheduling would succeed. -/
def cexFutureTransport : FutureTransport Nat Unit :=
  { createGroupResult := fun _ _ => Except.ok { groupId := "G1" }
    addMessagesResult := fun _ _ => Except.error ()
    reserveResult := fun _ _ => Except.ok { groupId := "G1" } }

/-- Witness for C5: with `cexFutureTransport`, `sendOneFuture` stops after the
failing add-messages call. -/
theorem future_send_stops_on_intermediate_failure_witness :
    (sendOneFuture 7 (StrOrDate.str "2024-01-01T00:00:00+09:00")
      (fun _ => { millis := 0 }) (fun _ => "2024-01-01T00:00:00+09:00")
      cexFutureTransport).1 =
      [FutureCall.createGroup false none,
       FutureCall.addMessagesToGroup "G1" [7]] :=
  (future_send_stops_on_intermediate_failure 7 [7]
    (StrOrDate.str "2024-01-01T00:00:00+09:00") false none
    (fun _ => { millis := 0 }) (fun _ => "2024-01-01T00:00:00+09:00")
    cexFutureTransport).2.1 () { groupId := "G1" } rfl rfl

/-- Modelled from the spec: `DatePayloadType` (src/requests/messageRequest.ts,
not under src/), the combined date-range object with optional `gte`/`lte`
string keys that finalizers build incrementally. -/
structure DatePayload where
  gte : Option String
  lte : Option String
deriving Repr, DecidableEq

/-- Raw blacklist query request `GetBlacksRequest`
(src/requests/iam/getBlacksRequest.ts lines 4-17): all fields optional,
`startDate`/`endDate` of type `string | Date`. -/
structure GetBlacksRequest where
  senderNumber : Option String
  startKey : Option String
  limit : Option Nat
  startDate : Option StrOrDate
  endDate : Option StrOrDate
deriving Repr, DecidableEq

/-- Finalized blacklist query request `GetBlacksFinalizeRequest`
(src/requests/iam/getBlacksRequest.ts lines 19-24): the `type` discriminant,
the three passthrough fields, and the optional `dateCreated` range object. -/
structure GetBlacksFinalizeRequest where
  type : String
  senderNumber : Option String
  startKey : Option String
  limit : Option Nat
  dateCreated : Option DatePayload
deriving Repr, DecidableEq

/-- Embedding of the `GetBlacksFinalizeRequest` constructor
(src/requests/iam/getBlacksRequest.ts lines 26-42). `fmt` stands for the
`formatWithTransfer` collaborator (src/lib/stringDateTrasnfer, not under
src/), which renders a `string | Date` as a string. `dateCreated` starts
absent; a present `startDate` assigns its `gte` key onto the existing object
(or a fresh empty one), then a present `endDate` assigns its `lte` key the
same way, mirroring the two `Object.assign(this.dateCreated ?? \x7b\x7d, ...)`
steps. -/
def finalizeGetBlacks (fmt : StrOrDate → String) (parameter : GetBlacksRequest) :
    GetBlacksFinalizeRequest :=
  let dc0 : Option DatePayload := none
  let dc1 : Option DatePayload :=
    match parameter.startDate with
    | none => dc0
    | some d => some { dc0.getD { gte := none, lte := none } with gte := some (fmt d) }
  let dc2 : Option DatePayload :=
    match parameter.endDate with
    | none => dc1
    | some d => some { dc1.getD { gte := none, lte := none } with lte := some (fmt d) }
  { type := "DENIAL"
    senderNumber := parameter.senderNumber
    startKey := parameter.startKey
    limit := parameter.limit
    dateCreated := dc2 }

/-- Claim C3: the finalized blacklist request's `dateCreated` object has both
`gte` and `lte` when both `startDate` and `endDate` are present, only the
corresponding key when exactly one of them is present, and is absent when
neither is. -/
theorem finalizeGetBlacks_dateCreated_shape (fmt : StrOrDate → String)
    (p : GetBlacksRequest) :
    (finalizeGetBlacks fmt p).dateCreated =
      match p.startDate, p.endDate with
      | none, none => none
      | some s, none => some { gte := some (fmt s), lte := none }
      | none, some e => some { gte := none, lte := some (fmt e) }
      | some s, some e => some { gte := some (fmt s), lte := some (fmt e) } := by
  obtain ⟨sn, sk, lim, sd, ed⟩ := p
  cases sd <;> cases ed <;> rfl

/-- Claim C4: finalizing the blacklist request holding only
`startDate = "2024-01-01T00:00:00+09:00"` yields exactly the request with
`type = "DENIAL"` and `dateCreated = \x7bgte: "2024-01-01T00:00:00+09:00"\x7d`,
with no `lte` key; stated for every formatter that round-trips that canonical
string unchanged, as the spec's date normalizer does. -/
theorem finalizeGetBlacks_startDate_scenario (fmt : StrOrDate → String)
    (h : fmt (StrOrDate.str "2024-01-01T00:00:00+09:00") =
      "2024-01-01T00:00:00+09:00") :
    finalizeGetBlacks fmt
      { senderNumber := none, startKey := none, limit := none,
        startDate := some (StrOrDate.str "2024-01-01T00:00:00+09:00"),
        endDate := none } =
      { type := "DENIAL", senderNumber := none, startKey := none, limit := none,
        dateCreated := some { gte := some "2024-01-01T00:00:00+09:00", lte := none } } := by
  simp [finalizeGetBlacks, h]

/-- Formatter used by concrete witnesses: renders an already-canonical string
unchanged and a `Date` object as a fixed canonical string. -/
def canonicalFormatter : StrOrDate → String
  | StrOrDate.str s => s
  | StrOrDate.date _ => "1970-01-01T00:00:00+00:00"

/-- Witness for C4 at the concrete canonical formatter. -/
theorem finalizeGetBlacks_startDate_scenario_witness :
    finalizeGetBlacks canonicalFormatter
      { senderNumber := none, startKey := none, limit := none,
        startDate := some (StrOrDate.str "2024-01-01T00:00:00+09:00"),
        endDate := none } =
      { type := "DENIAL", senderNumber := none, startKey := none, limit := none,
        dateCreated := some { gte := some "2024-01-01T00:00:00+09:00", lte := none } } :=
  finalizeGetBlacks_startDate_scenario canonicalFormatter rfl

/-- Untyped view of one field slot of a request, able to hold a raw `Date`;
used to state that finalized requests are date-free even though raw requests
are not. -/
inductive FieldVal where
  | strVal : String → FieldVal
  | natVal : Nat → FieldVal
  | dateVal : DateObj → FieldVal
  | absent : FieldVal
deriving Repr, DecidableEq

/-- Whether a field slot holds a raw `Date` object. -/
def FieldVal.isDate : FieldVal → Bool
  | FieldVal.dateVal _ => true
  | _ => false

/-- View of an optional string field as a field slot. -/
def optStrVal : Option String → FieldVal
  | some s => FieldVal.strVal s
  | none => FieldVal.absent

/-- View of an optional numeric field as a field slot. -/
def optNatVal : Option Nat → FieldVal
  | some n => FieldVal.natVal n
  | none => FieldVal.absent

/-- View of an optional `string | Date` field as a field slot: a `Date`
surfaces as a `dateVal`. -/
def optStrOrDateVal : Option StrOrDate → FieldVal
  | some (StrOrDate.str s) => FieldVal.strVal s
  | some (StrOrDate.date d) => FieldVal.dateVal d
  | none => FieldVal.absent

/-- All field slots of a raw blacklist request, date fields included. -/
def GetBlacksRequest.fieldVals (p : GetBlacksRequest) : List FieldVal :=
  [optStrVal p.senderNumber, optStrVal p.startKey, optNatVal p.limit,
   optStrOrDateVal p.startDate, optStrOrDateVal p.endDate]

/-- All field slots of a finalized blacklist request, the `dateCreated`
object flattened into its `gte` and `lte` slots. -/
def GetBlacksFinalizeRequest.fieldVals (r : GetBlacksFinalizeRequest) : List FieldVal :=
  [FieldVal.strVal r.type, optStrVal r.senderNumber, optStrVal r.startKey,
   optNatVal r.limit,
   (match r.dateCreated with | some dc => optStrVal dc.gte | none => FieldVal.absent),
   (match r.dateCreated with | some dc => optStrVal dc.lte | none => FieldVal.absent)]

/-- Claim C7: whatever the raw request — including one whose `startDate` and
`endDate` are raw `Date` objects — every field slot of the finalized blacklist
request is date-free: the `string | Date` fields have been rendered to
strings. -/
theorem finalizeGetBlacks_no_raw_date (fmt : StrOrDate → String)
    (p : GetBlacksRequest) :
    ((finalizeGetBlacks fmt p).fieldVals.all fun v => !v.isDate) = true := by
  obtain ⟨sn, sk, lim, sd, ed⟩ := p
  cases sn <;> cases sk <;> cases lim <;> cases sd <;> cases ed <;> rfl

/-- Shape shared by the paginated response types in src/
(`GetBlockGroupsResponse`, src/responses/iam/getBlockGroupsResponse.ts lines
6-11, and `GetKakaoChannelsResponse`,
src/responses/kakao/getKakaoChannelsResponse.ts lines 6-11): a start key, a
page limit, a nullable next key, and the page's items. Keys are modelled as
positions into the remote collection. -/
structure PageResponse (α : Type) where
  startKey : Nat
  limit : Nat
  nextKey : Option Nat
  items : List α
deriving Repr, DecidableEq

/-- Modelled from the spec: the remote paginated endpoint behind the
pagination response types (the server is an external collaborator and no
consumer loop is under src/). Section 3 of the spec: a page holds up to
`limit` items starting at `startKey`; `nextKey` is null when no further page
exists and otherwise is the key the consumer passes back as the next
`startKey`. -/
def pageQuery (allItems : List α) (limit startKey : Nat) : PageResponse α :=
  { startKey := startKey
    limit := limit
    nextKey := if startKey + limit < allItems.length then some (startKey + limit) else none
    items := (allItems.drop startKey).take limit }

/-- Claim C8: in a pagination response, `nextKey` is null exactly when no
further page exists (every item of the collection lies before the next start
position), and a non-null `nextKey`, passed back as the next `startKey`, is a
valid continuation token: the returned page continues the previous one with
no gap and no overlap. -/
theorem pagination_nextKey_contract (allItems : List α) (limit startKey : Nat) :
    ((pageQuery allItems limit startKey).nextKey = none ↔
      allItems.length ≤ startKey + limit) ∧
    (∀ k, (pageQuery allItems limit startKey).nextKey = some k →
      k < allItems.length ∧
      (pageQuery allItems limit startKey).items ++ (pageQuery allItems limit k).items =
        (allItems.drop startKey).take (limit + limit)) := by
  constructor
  · by_cases hlt : startKey + limit < allItems.length
    · simp [pageQuery, hlt]
    · simp [pageQuery, hlt]
      omega
  · intro k hk
    by_cases hlt : startKey + limit < allItems.length
    · simp only [pageQuery, if_pos hlt, Option.some.injEq] at hk
      subst hk
      refine ⟨hlt, ?_⟩
      simp only [pageQuery]
      rw [List.take_add, ← List.drop_drop]
    · simp [pageQuery, if_neg hlt] at hk

/-- Witness for C8: on the five-element collection with limit 2, the first
page's `nextKey` is 2 and querying again from key 2 continues the collection
seamlessly. -/
theorem pagination_nextKey_contract_witness :
    (pageQuery [10, 20, 30, 40, 50] 2 0).nextKey = some 2 ∧
    2 < ([10, 20, 30, 40, 50] : List Nat).length ∧
    (pageQuery [10, 20, 30, 40, 50] 2 0).items ++ (pageQuery [10, 20, 30, 40, 50] 2 2).items =
      (([10, 20, 30, 40, 50] : List Nat).drop 0).take (2 + 2) :=
  ⟨by decide, (pagination_nextKey_contract [10, 20, 30, 40, 50] 2 0).2 2 (by decide)⟩

/-- Shape of the Kakao-channel list responses
(src/responses/kakao/getKakaoChannelsResponse.ts lines 6-18): the raw and the
finalized response share their `limit`/`startKey`/`nextKey` fields and differ
only in the element type of `channelList` (raw interface vs. `KakaoChannel`
model), hence one polymorphic shape. -/
structure KakaoChannelsPage (C : Type) where
  limit : Nat
  startKey : String
  nextKey : Option String
  channelList : List C
deriving Repr, DecidableEq

/-- Embedding of the response-mapping tail of
`SolapiMessageService.getKakaoChannels` (src/solapi.ts lines 592-602): each
raw channel is pushed, in order, through the `KakaoChannel` constructor
(`wrap`; src/models/kakao/kakaoChannel.ts is not under src/ and is opaque
here), and `limit`/`nextKey`/`startKey` are copied from the raw response. -/
def getKakaoChannelsFinalize (wrap : CI → C) (response : KakaoChannelsPage CI) :
    KakaoChannelsPage C :=
  { limit := response.limit
    nextKey := response.nextKey
    startKey := response.startKey
    channelList := response.channelList.map wrap }

/-- Claim C10: the finalized `getKakaoChannels` response carries the raw
response's `limit`, `startKey` and `nextKey` through unchanged, and its
`channelList` is the element-wise wrapping of the raw list, preserving length
(and, being a `map`, order). -/
theorem getKakaoChannels_frame (wrap : CI → C) (response : KakaoChannelsPage CI) :
    (getKakaoChannelsFinalize wrap response).limit = response.limit ∧
    (getKakaoChannelsFinalize wrap response).startKey = response.startKey ∧
    (getKakaoChannelsFinalize wrap response).nextKey = response.nextKey ∧
    (getKakaoChannelsFinalize wrap response).channelList = response.channelList.map wrap ∧
    (getKakaoChannelsFinalize wrap response).channelList.length =
      response.channelList.length := by
  refine ⟨rfl, rfl, rfl, rfl, ?_⟩
  simp [getKakaoChannelsFinalize]

end Solapi
